import Mathlib

set_option maxRecDepth 100000
set_option maxHeartbeats 1000000

/-!
Verification of the prompt-synthesis core of `questions.py`.

The program consists of:
* `get_questions` — the question-corpus loader: it tries to open and JSON-parse
  `all_questions.json` and returns the parsed value; the bare `except:` turns
  every failure (file absent, unreadable, malformed content) into `[]`.
* `questions_generator` — the static target-file registry, a literal list of
  19 repository-relative paths.
* three template composers — `question_format`, `validation_format` and
  `question_generator` — each a single f-string that embeds its one string
  parameter into otherwise constant template text.

The f-string bodies are embedded below byte-for-byte (apostrophes written as
the escape `\x27`), split into named constants exactly at the interpolation
points and, where a claim speaks about a particular output line, at that line
boundary.  Machine-level effects are made explicit: the fallible file/JSON
acquisition of the loader is a parameter of type `Except LoadError Json`,
and the module globals that exist when a composer is called are threaded as
an explicit `ModuleEnv` value through the `run_*` wrappers.
-/

/-- JSON values as produced by Python `json.load`.  JSON numbers are modelled
by integers; no claim depends on the numeric type. -/
inductive Json where
  | null : Json
  | bool (b : Bool) : Json
  | num (n : Int) : Json
  | str (s : String) : Json
  | arr (elems : List Json) : Json
  | obj (members : List (String × Json)) : Json

/-- The failure taxonomy of the corpus acquisition in `get_questions`: the
file can be absent, unreadable, or hold malformed content.  The bare
`except:` in the source catches all three indiscriminately. -/
inductive LoadError where
  | absent : LoadError
  | unreadable : LoadError
  | malformed : LoadError

/-- `get_questions` from `questions.py`: `resource` is the outcome of
`open("all_questions.json")` followed by `json.load` — `Except.ok v` when the
file was opened and parsed to the JSON value `v`, `Except.error e` when any
step failed.  On success the parsed value is returned unchanged (whatever its
shape); on any failure the result is the empty list `[]`. -/
def get_questions (resource : Except LoadError Json) : Json :=
  match resource with
  | Except.ok v => v
  | Except.error _ => Json.arr []

/-- The module-level `questions = get_questions()` binding, with the ambient
acquisition outcome made explicit. -/
def questions (resource : Except LoadError Json) : Json :=
  get_questions resource

/-- The target-file registry `questions_generator` from `questions.py`,
verbatim. -/
def questions_generator : List String :=
  ["contracts/rujira-account/src/lib.rs",
   "contracts/rujira-account/src/contract.rs",
   "contracts/rujira-account/src/execute.rs",
   "contracts/rujira-account/src/error.rs",
   "contracts/rujira-account/src/state.rs",
   "contracts/rujira-ghost-credit/src/lib.rs",
   "contracts/rujira-ghost-credit/src/account.rs",
   "contracts/rujira-ghost-credit/src/config.rs",
   "contracts/rujira-ghost-credit/src/contract.rs",
   "contracts/rujira-ghost-credit/src/error.rs",
   "contracts/rujira-ghost-credit/src/events.rs",
   "contracts/rujira-ghost-credit/src/state.rs",
   "contracts/rujira-ghost-vault/src/lib.rs",
   "contracts/rujira-ghost-vault/src/borrowers.rs",
   "contracts/rujira-ghost-vault/src/config.rs",
   "contracts/rujira-ghost-vault/src/contract.rs",
   "contracts/rujira-ghost-vault/src/error.rs",
   "contracts/rujira-ghost-vault/src/events.rs",
   "contracts/rujira-ghost-vault/src/state.rs"]

def qfPreQ : String :=
     "  \n"
  ++ "You are an **Elite DeFi Security Auditor** specializing in   \n"
  ++ "overcollateralized lending protocols, cross-chain asset management, oracle   \n"
  ++ "manipulation resistance, and liquidation mechanisms. Your task is to analyze   \n"
  ++ "the **Rujira Protocol** codebase—a CosmWasm-based lending and borrowing system   \n"
  ++ "built on THORChain featuring secured assets, multi-collateral credit accounts,   \n"
  ++ "and permissionless liquidations—through the lens of this single security question:   \n"
  ++ "  "

def qLabel : String := "**Security Question (scope for this run):** "


def qfMid : String :=
     "  \n"
  ++ "**RUJIRA PROTOCOL CONTEXT:**  \n"
  ++ "  \n"
  ++ "**Architecture**: Rujira enables overcollateralized borrowing of THORChain secured   \n"
  ++ "assets through a three-contract system. Users deposit collateral into credit accounts   \n"
  ++ "(`rujira-account`), borrow from lending vaults (`rujira-ghost-vault`), and all operations   \n"
  ++ "are orchestrated by a registry contract (`rujira-ghost-credit`). The protocol maintains   \n"
  ++ "solvency through dynamic LTV calculations, collateral ratio haircuts, and   \n"
  ++ "permissionless liquidation mechanisms.  \n"
  ++ "  \n"
  ++ "Think in invariant   \n"
  ++ "Check every logic entry that could affect the protocol base on the question provided   \n"
  ++ "Look at the exact file provided and other places also if it can cause a severe vuln   \n"
  ++ "Think in an elite way becasue there is always a logic vuln that could occur   \n"
  ++ "  \n"
  ++ "**Key Components**:   \n"
  ++ "  \n"
  ++ "* **Credit Registry**: `rujira-ghost-credit/src/contract.rs` (main orchestrator   \n"
  ++ "  with account creation, LTV enforcement, liquidation triggers),   \n"
  ++ "  `rujira-ghost-credit/src/account.rs` (account validation and LTV calculations),   \n"
  ++ "  `rujira-ghost-credit/src/config.rs` (protocol parameters and validation)  \n"
  ++ "  \n"
  ++ "* **Lending Vaults**: `rujira-ghost-vault/src/contract.rs` (vault operations,   \n"
  ++ "  interest distribution), `rujira-ghost-vault/src/state.rs` (share accounting,   \n"
  ++ "  interest accrual), `rujira-ghost-vault/src/borrowers.rs` (borrower limits   \n"
  ++ "  and authorization)  \n"
  ++ "  \n"
  ++ "* **Individual Accounts**: `rujira-account/src/contract.rs` (sudo-only access   \n"
  ++ "  pattern, isolated accounting), `rujira-account/src/execute.rs` (message   \n"
  ++ "  forwarding and execution)  \n"
  ++ "  \n"
  ++ "**Files in Scope**: All contracts in `contracts/rujira-account/src/`,   \n"
  ++ "`contracts/rujira-ghost-credit/src/`, and `contracts/rujira-ghost-vault/src/`   \n"
  ++ "directories. Test files are **out of scope** for vulnerability analysis   \n"
  ++ "but may be referenced for understanding expected behavior.  \n"
  ++ "  \n"
  ++ "**CRITICAL INVARIANTS (derived from protocol specification and code):**  \n"
  ++ "  \n"
  ++ "1. **Owner-Gated Accounts**: Only `account.owner` can initiate operations via   \n"
  ++ "   `ExecuteMsg::Account`. This ensures debt creation and collateral movements   \n"
  ++ "   are bound to the NFT-like ownership model.  \n"
  ++ "  \n"
  ++ "2. **Post-Adjustment LTV Check**: After any owner operation, `adjusted_ltv` must   \n"
  ++ "   be `< adjustment_threshold`. If exceeded, the transaction fails to prevent   \n"
  ++ "   unsafe account states.  \n"
  ++ "  \n"
  ++ "3. **Safe Liquidation Outcomes**: Liquidations only trigger when   \n"
  ++ "   `adjusted_ltv >= liquidation_threshold` and must stop before over-selling   \n"
  ++ "   collateral, respecting user preferences and max slip limits.  \n"
  ++ "  \n"
  ++ "4. **Whitelisted Vault Access**: Registry only routes to vaults listed in   \n"
  ++ "   `collateral_ratios`, preventing rogue contracts from being used as debt sources.  \n"
  ++ "  \n"
  ++ "5. **Bounded Config Values**: All configuration changes validated via   \n"
  ++ "   `Config::validate`, enforcing fee caps, ratio constraints, and threshold ordering.  \n"
  ++ "  \n"
  ++ "6. **Fee-First Liquidation Repay**: Protocol and liquidator fees extracted before   \n"
  ++ "   debt repayment, ensuring fees are never minted without real debt repayment.  \n"
  ++ "  \n"
  ++ "7. **Admin-Only Accounts**: `rujira-account` instances only accept `sudo` calls   \n"
  ++ "   from registry, maintaining strict access control over account operations.  \n"
  ++ "  \n"
  ++ "8. **Governance-Whitelisted Borrowers**: Only pre-approved contracts via   \n"
  ++ "   `SudoMsg::SetBorrower` can borrow from vaults, preventing unauthorized debt creation.  \n"
  ++ "  \n"
  ++ "9. **Borrow Limit Enforcement**: Each borrower has a maximum USD value they can   \n"
  ++ "   borrow, preventing systemic over-leverage.  \n"
  ++ "  \n"
  ++ "10. **Always-Accrued Interest**: `distribute_interest()` called before all operations,   \n"
  ++ "    ensuring accurate accounting and preventing stale data manipulation.  \n"
  ++ "  \n"
  ++ "**YOUR INVESTIGATION MISSION:**  \n"
  ++ "  \n"
  ++ "Accept the premise of the security question and explore **all** relevant   \n"
  ++ "code paths, data structures, state transitions, and cross-contract   \n"
  ++ "interactions related to it. Do not settle for surface observations—trace   \n"
  ++ "execution flows through account creation → collateral deposit → borrowing   \n"
  ++ "→ LTV validation → liquidation flows.  \n"
  ++ "  \n"
  ++ "Your goal is to find **one** concrete, exploitable vulnerability tied to   \n"
  ++ "the question that an attacker, liquidator, or malicious user could exploit.   \n"
  ++ "Focus on:   \n"
  ++ "  \n"
  ++ "* Business-logic flaws (incorrect validation, missing checks)  \n"
  ++ "* Mathematical errors (overflow, underflow, precision loss in LTV calculations)  \n"
  ++ "* Race conditions (concurrent account operations, share accounting)  \n"
  ++ "* Oracle manipulation (THORChain oracle price feeds)  \n"
  ++ "* Collateral calculation bugs (collateral ratios, LTV computations)  \n"
  ++ "* Liquidation vulnerabilities (premature liquidation, fee extraction)  \n"
  ++ "* Interest accrual manipulation (distribution calculations, rate determination)  \n"
  ++ "* Access control bypasses (sudo pattern violations, owner validation)  \n"
  ++ "* Cross-contract interaction bugs (registry-vault-account communication)  \n"
  ++ "* Asset accounting errors (share price manipulation, supply inconsistencies)  \n"
  ++ "  \n"
  ++ "**ATTACK SURFACE EXPLORATION:**  \n"
  ++ "  \n"
  ++ "1. **Account Operations** (`rujira-ghost-credit/src/contract.rs`, `rujira-ghost-credit/src/account.rs`):  \n"
  ++ "   - Owner validation bypasses in `ExecuteMsg::Account`  \n"
  ++ "   - LTV calculation errors during collateral/borrow operations  \n"
  ++ "   - Race conditions between account state updates and LTV checks  \n"
  ++ "   - Collateral ratio manipulation through asset valuation bugs  \n"
  ++ "   - Account transfer vulnerabilities affecting ownership model  \n"
  ++ "  \n"
  ++ "2. **Liquidation Mechanism** (`rujira-ghost-credit/src/contract.rs`):  \n"
  ++ "   - Premature liquidation through oracle manipulation  \n"
  ++ "   - Liquidation fee extraction exceeding protocol limits  \n"
  ++ "   - Partial liquidation leaving residual debt positions  \n"
  ++ "   - Liquidatee preference order manipulation  \n"
  ++ "   - Max slip limit bypasses enabling over-collateralization  \n"
  ++ "  \n"
  ++ "3. **Vault Operations** (`rujira-ghost-vault/src/contract.rs`, `rujira-ghost-vault/src/state.rs`):  \n"
  ++ "   - Share price manipulation through accounting errors  \n"
  ++ "   - Interest distribution bugs enabling unlimited minting  \n"
  ++ "   - Borrower limit bypasses through delegate borrowing  \n"
  ++ "   - Deposit/withdrawal accounting inconsistencies  \n"
  ++ "   - Protocol fee calculation errors  \n"
  ++ "  \n"
  ++ "4. **Access Control** (`rujira-account/src/contract.rs`, `rujira-ghost-vault/src/borrowers.rs`):  \n"
  ++ "   - Sudo pattern violations enabling unauthorized account control  \n"
  ++ "   - Borrower whitelist bypasses allowing unauthorized debt creation  \n"
  ++ "   - Admin privilege escalation through configuration manipulation  \n"
  ++ "   - Cross-contract authorization failures  \n"
  ++ "  \n"
  ++ "5. **Oracle Integration** (THORChain oracle usage):  \n"
  ++ "   - Price manipulation through oracle feed attacks  \n"
  ++ "   - Stale oracle data exploitation in LTV calculations  \n"
  ++ "   - Cross-chain price inconsistencies enabling arbitrage  \n"
  ++ "   - Oracle failure handling during liquidations  \n"
  ++ "  \n"
  ++ "6. **Mathematical Operations** (LTV, interest, share calculations):  \n"
  ++ "   - Precision loss in collateral-to-debt conversions  \n"
  ++ "   - Overflow/underflow in share supply calculations  \n"
  ++ "   - Rounding errors in interest distribution  \n"
  ++ "   - Collateral ratio computation bugs  \n"
  ++ "  \n"
  ++ "**RUJIRA-SPECIFIC ATTACK VECTORS:**  \n"
  ++ "  \n"
  ++ "- **LTV Calculation Manipulation**: Can attackers manipulate collateral valuations   \n"
  ++ "  or debt calculations to bypass `adjustment_threshold` and create undercollateralized positions?  \n"
  ++ "- **Liquidation Race Conditions**: Can timing attacks between oracle updates and   \n"
  ++ "  liquidation triggers enable profitable liquidations at manipulated prices?  \n"
  ++ "- **Share Price Exploitation**: Can attackers manipulate share price calculations   \n"
  ++ "  in vaults to drain assets or extract protocol fees?  \n"
  ++ "- **Access Control Bypass**: Can attackers circumvent the sudo pattern or owner   \n"
  ++ "  validation to gain unauthorized control over credit accounts?  \n"
  ++ "- **Interest Accrual Bugs**: Can interest calculation errors enable unlimited   \n"
  ++ "  asset minting or interest avoidance through timing attacks?  \n"
  ++ "- **Cross-Contract State Inconsistencies**: Can state synchronization issues between   \n"
  ++ "  registry, vaults, and accounts create exploitable arbitrage opportunities?  \n"
  ++ "- **Collateral Ratio Haircut Bypass**: Can attackers exploit collateral ratio   \n"
  ++ "  calculations to over-value volatile assets and increase borrowing capacity?  \n"
  ++ "- **Liquidation Fee Extraction**: Can liquidators extract fees exceeding protocol   \n"
  ++ "  limits through calculation errors or state manipulation?  \n"
  ++ "- **Oracle Manipulation**: Can THORChain oracle manipulation enable profitable   \n"
  ++ "  liquidations or borrowing attacks?  \n"
  ++ "- **Account Ownership Transfer Bugs**: Can account transfer mechanisms be exploited   \n"
  ++ "  to bypass ownership controls or facilitate collateral theft?  \n"
  ++ "  \n"
  ++ "**TRUST MODEL:**  \n"
  ++ "  \n"
  ++ "**Trusted Roles**: THORChain oracle providers, Rujira Deployer Multisig, THORChain   \n"
  ++ "node operators. Do **not** assume these actors behave maliciously unless the   \n"
  ++ "question explicitly explores compromised oracle or governance scenarios.  \n"
  ++ "  \n"
  ++ "**Untrusted Actors**: Any user creating accounts, borrowing funds, liquidating   \n"
  ++ "positions, or attempting price manipulation. Focus your analysis on bugs   \n"
  ++ "exploitable by untrusted actors without requiring oracle compromise or   \n"
  ++ "governance collusion.  \n"
  ++ "  \n"
  ++ "**KNOWN ISSUES / EXCLUSIONS:**  \n"
  ++ "  \n"
  ++ "- Cryptographic primitives (CosmWasm crypto functions) are assumed secure  \n"
  ++ "- THORChain network security (assumed resistant to 51% attacks)  \n"
  ++ "- Oracle data accuracy (oracles are trusted to provide correct data)  \n"
  ++ "- Network-level attacks (DDoS, BGP hijacking, DNS poisoning)  \n"
  ++ "- CosmWasm runtime bugs unrelated to Rujira code  \n"
  ++ "- Social engineering, phishing, or key theft  \n"
  ++ "- Gas optimization, code style, missing comments  \n"
  ++ "- Precision loss <0.01% in fee calculations  \n"
  ++ "- Test file issues (tests are out of scope)  \n"
  ++ "- Market risk (price movements) unless caused by protocol bugs  \n"
  ++ "- MEV or front-running attacks unless enabled by protocol vulnerabilities  \n"
  ++ "  \n"
  ++ "**VALID IMPACT CATEGORIES (Code4rena Bug Bounty):**  \n"
  ++ "  \n"
  ++ "**Critical Severity**:  \n"
  ++ "- Direct loss of funds (theft of user collateral or protocol assets)  \n"
  ++ "- Permanent freezing of funds (fix requires protocol redeployment)  \n"
  ++ "- Protocol insolvency leading to systemic loss  \n"
  ++ "  \n"
  ++ "**High Severity**:  \n"
  ++ "- Temporary freezing of funds with economic loss  \n"
  ++ "- Systemic undercollateralization risks  \n"
  ++ "- Widespread liquidations due to protocol bugs  \n"
  ++ "  \n"
  ++ "**Medium Severity**:  \n"
  ++ "- Economic manipulation benefiting attackers  \n"
  ++ "- State inconsistencies requiring manual intervention  \n"
  ++ "- Interest or fee calculation errors  \n"
  ++ "- DoS vulnerabilities affecting core functionality  \n"
  ++ "  \n"
  ++ "**Low/QA (out of scope)**:  \n"
  ++ "- Minor precision loss (<0.01%)  \n"
  ++ "- Gas inefficiencies  \n"
  ++ "- Event emission or logging issues  \n"
  ++ "- Non-critical edge cases with no financial impact  \n"
  ++ "  \n"
  ++ "**OUTPUT REQUIREMENTS:**  \n"
  ++ "  \n"
  ++ "If you discover a valid vulnerability related to the security question,   \n"
  ++ "produce a **full report** following the format below. Your report must include:   \n"
  ++ "- Exact file paths and function names  \n"
  ++ "- Code quotations (actual snippets from the in-scope contracts)  \n"
  ++ "- Step-by-step exploitation path with realistic parameters  \n"
  ++ "- Clear explanation of which invariant is broken  \n"
  ++ "- Impact quantification (fund loss amount, collateral affected)  \n"
  ++ "- Likelihood assessment (attacker profile, preconditions, complexity)  \n"
  ++ "- Concrete recommendation with code fix  \n"
  ++ "- Proof of Concept (Rust test demonstrating the exploit)  \n"
  ++ "  \n"
  ++ "If **no** valid vulnerability emerges after thorough investigation, state exactly:   "

def sentLine : String := "`#NoVulnerability found for this question.`  "

def qfPost : String :=
     "  \n"
  ++ "**Do not fabricate or exaggerate issues.** Only concrete, exploitable bugs with   \n"
  ++ "clear attack paths and realistic impact count.  \n"
  ++ "  \n"
  ++ "**Do not** report:   \n"
  ++ "- Known issues from previous Halborn audits  \n"
  ++ "- Out-of-scope problems (test files, CosmWasm bugs, crypto primitive breaks)  \n"
  ++ "- Theoretical vulnerabilities without clear attack path and PoC  \n"
  ++ "- Issues requiring trusted roles to behave maliciously  \n"
  ++ "- Minor optimizations, style issues, or low-severity findings  \n"
  ++ "  \n"
  ++ "**Focus on one high-quality finding** rather than multiple weak claims.  \n"
  ++ "  \n"
  ++ "**VALIDATION CHECKLIST (Before Reporting):**  \n"
  ++ "- [ ] Vulnerability lies within one of the in-scope contracts (not test/)  \n"
  ++ "- [ ] Exploitable by unprivileged attacker (no oracle/governance collusion required)  \n"
  ++ "- [ ] Attack path is realistic with correct data types and feasible parameters  \n"
  ++ "- [ ] Impact meets Critical, High, or Medium severity per Code4rena scope  \n"
  ++ "- [ ] PoC can be implemented as Rust test or transaction sequence  \n"
  ++ "- [ ] Issue breaks at least one documented invariant  \n"
  ++ "- [ ] Not a known exclusion from Halborn audits  \n"
  ++ "- [ ] Clear financial harm, collateral loss, or state divergence demonstrated  \n"
  ++ "  \n"
  ++ "---  \n"
  ++ "  \n"
  ++ "**AUDIT REPORT FORMAT** (if vulnerability found):  \n"
  ++ "  \n"
  ++ "Audit Report  \n"
  ++ "  \n"
  ++ "## Title   \n"
  ++ "The Title Of the Report   \n"
  ++ "  \n"
  ++ "## Summary  \n"
  ++ "A short summary of the issue, keep it brief.  \n"
  ++ "  \n"
  ++ "## Finding Description  \n"
  ++ "A more detailed explanation of the issue. Poorly written or incorrect findings may result in rejection and a decrease of reputation score.  \n"
  ++ "  \n"
  ++ "Describe which security guarantees it breaks and how it breaks them. If this bug does not automatically happen, showcase how a malicious input would propagate through the system to the part of the code where the issue occurs.  \n"
  ++ "  \n"
  ++ "## Impact Explanation  \n"
  ++ "Elaborate on why you\x27ve chosen a particular impact assessment.  \n"
  ++ "  \n"
  ++ "## Likelihood Explanation  \n"
  ++ "Explain how likely this is to occur and why.  \n"
  ++ "  \n"
  ++ "## Recommendation  \n"
  ++ "How can the issue be fixed or solved. Preferably, you can also add a snippet of the fixed code here.  \n"
  ++ "  \n"
  ++ "## Proof of Concept  \n"
  ++ "A proof of concept is normally required for Critical, High and Medium Submissions for reviewers under 80 reputation points. Please check the competition page for more details, otherwise your submission may be rejected by the judges.  \n"
  ++ "Very important the test function using their test must be provided in here and pls it must be able to compile and run successfully  \n"
  ++ "  \n"
  ++ "**Remember**: False positives harm credibility more than missed findings.  Assume claims are invalid until overwhelming evidence proves otherwise.  \n"
  ++ "  \n"
  ++ "**Now perform STRICT validation of the claim above.**  \n"
  ++ "  \n"
  ++ "**Output ONLY:**  \n"
  ++ "- A full audit report (if genuinely valid after passing **all** checks above) following the specified format  \n"
  ++ "- `#NoVulnerability found for this question.` (if **any** check fails)  \n"
  ++ "  \n"
  ++ "**Be ruthlessly skeptical.  The bar for validity is EXTREMELY valid.**  \n"


def vfA : String :=
     "\n"
  ++ "You are an **Elite DeFi Security Judge** with deep expertise in overcollateralized lending protocols, CosmWasm smart contracts, THORChain integration, and Code4rena bug bounty validation. Your ONLY task is **ruthless technical validation** of security claims against the Rujira codebase.\n"
  ++ "\n"
  ++ "Note: THORChain oracle providers and Rujira Deployer Multisig are trusted roles.\n"
  ++ "\n"
  ++ "**SECURITY CLAIM TO VALIDATE:**\n"

def vfB : String :=
     "\n"
  ++ "\n"
  ++ "\x3d\x3d\x3d\x3d\x3d\x3d\x3d\x3d\x3d\x3d\x3d\x3d\x3d\x3d\x3d\x3d\x3d\x3d\x3d\x3d\x3d\x3d\x3d\x3d\x3d\x3d\x3d\x3d\x3d\x3d\x3d\x3d\x3d\x3d\x3d\x3d\x3d\x3d\x3d\x3d\x3d\x3d\x3d\x3d\x3d\x3d\x3d\x3d\x3d\x3d\x3d\x3d\x3d\x3d\x3d\x3d\x3d\x3d\x3d\x3d\x3d\x3d\x3d\x3d\x3d\x3d\x3d\x3d\x3d\x3d\x3d\x3d\x3d\x3d\x3d\x3d\x3d\x3d\x3d\x3d\n"
  ++ "## **RUJIRA PROTOCOL VALIDATION FRAMEWORK**\n"
  ++ "\n"
  ++ "### **PHASE 1: IMMEDIATE DISQUALIFICATION CHECKS**\n"
  ++ "Reject immediately (`#NoVulnerability`) if **ANY** apply:\n"
  ++ "\n"
  ++ "#### **A. Scope Violations**\n"
  ++ "- ❌ Affects files **not** in the three in-scope contract directories\n"
  ++ "- ❌ Targets any file under test directories (`*.test.*`, `tests/`) - tests are out of scope\n"
  ++ "- ❌ Claims about documentation, comments, code style, or logging (not security issues)\n"
  ++ "- ❌ Focuses on out-of-scope components: rujira-bow, rujira-fin, rujira-thorchain-swap, rujira-mint, rujira-pilot, rujira-staking, rujira-revenue\n"
  ++ "\n"
  ++ "**In-Scope Files (3 contracts):**\n"
  ++ "- **rujira-account**: `contracts/rujira-account/src/**/*.rs` (sudo pattern, isolated accounting)\n"
  ++ "- **rujira-ghost-credit**: `contracts/rujira-ghost-credit/src/**/*.rs` (registry, LTV enforcement, liquidations)\n"
  ++ "- **rujira-ghost-vault**: `contracts/rujira-ghost-vault/src/**/*.rs` (lending vaults, interest distribution)\n"
  ++ "\n"
  ++ "**Verify**: Check that every file path cited in the report matches exactly one of the in-scope contracts.\n"
  ++ "\n"
  ++ "#### **B. Threat Model Violations**\n"
  ++ "- ❌ Requires THORChain oracle manipulation or compromise (oracles are trusted)\n"
  ++ "- ❌ Assumes compromised Rujira Deployer Multisig (multisig is trusted role)\n"
  ++ "- ❌ Needs THORChain node operators to act maliciously (node operators are trusted)\n"
  ++ "- ❌ Requires attacker to compromise CosmWasm runtime or blockchain consensus\n"
  ++ "- ❌ Assumes cryptographic primitives (CosmWasm crypto functions) are broken\n"
  ++ "- ❌ Depends on network-level attacks: DDoS, BGP hijacking, DNS poisoning\n"
  ++ "- ❌ Relies on social engineering, phishing, key theft, or user operational security failures\n"
  ++ "\n"
  ++ "**Trusted Roles**: THORChain oracle providers provide price feeds; Rujira Deployer Multisig controls protocol parameters; THORChain node operators can pause contracts. Do **not** assume these actors behave maliciously.\n"
  ++ "\n"
  ++ "**Untrusted Actors**: Any user creating accounts, borrowing funds, liquidating positions, or attempting manipulation.\n"
  ++ "\n"
  ++ "#### **C. Known Issues / Accepted Risks** (from Halborn audits)\n"
  ++ "- ❌ Any finding already mentioned in Halborn audit reports\n"
  ++ "- ❌ Liquidations requiring off-chain triggering (by design, permissionless)\n"
  ++ "- ❌ Market risk from normal price movements (not protocol bugs)\n"
  ++ "- ❌ THORChain network-level issues or secured asset risks\n"
  ++ "- ❌ Precision loss <0.01% in calculations\n"
  ++ "- ❌ Gas/fee optimization issues without security impact\n"
  ++ "\n"
  ++ "#### **D. Non-Security Issues**\n"
  ++ "- ❌ Gas optimizations, performance improvements, or micro-optimizations\n"
  ++ "- ❌ Code style, naming conventions, or refactoring suggestions\n"
  ++ "- ❌ Missing events, logs, error messages, or better user experience\n"
  ++ "- ❌ Documentation improvements, README updates, or comment additions\n"
  ++ "- ❌ \"Best practices\" recommendations with no concrete exploit scenario\n"
  ++ "- ❌ Input validation preventing honest user mistakes unless it enables theft\n"
  ++ "- ❌ Minor precision errors with negligible financial impact (<0.01%)\n"
  ++ "\n"
  ++ "#### **E. Invalid Exploit Scenarios**\n"
  ++ "- ❌ Requires impossible inputs: negative amounts, invalid addresses, unrealistic prices\n"
  ++ "- ❌ Cannot be triggered through any realistic ExecuteMsg or SudoMsg call\n"
  ++ "- ❌ Depends on calling internal functions not exposed through any public API\n"
  ++ "- ❌ Relies on race conditions prevented by atomic operations or state checks\n"
  ++ "- ❌ Needs multiple coordinated transactions with no economic incentive\n"
  ++ "- ❌ Requires attacker to already possess the collateral they seek to steal\n"
  ++ "- ❌ Depends on block timestamp manipulation beyond reasonable bounds\n"
  ++ "\n"
  ++ "### **PHASE 2: RUJIRA-SPECIFIC DEEP CODE VALIDATION**\n"
  ++ "\n"
  ++ "#### **Step 1: TRACE COMPLETE EXECUTION PATH THROUGH LENDING ARCHITECTURE**\n"
  ++ "\n"
  ++ "**Rujira Flow Patterns:**\n"
  ++ "\n"
  ++ "1. **Account Creation Flow**:\n"
  ++ "   User calls `rujira-ghost-credit::ExecuteMsg::CreateAccount` → creates new `rujira-account` instance → registry set as admin → sudo-only access established\n"
  ++ "\n"
  ++ "2. **Collateral Deposit Flow**:\n"
  ++ "   User sends tokens to account → calls `ExecuteMsg::Account(AccountMsg::Deposit)` → registry validates ownership → sudo call to account → tokens held in isolated accounting\n"
  ++ "\n"
  ++ "3. **Borrowing Flow**:\n"
  ++ "   User calls `ExecuteMsg::Account(AccountMsg::Borrow)` → registry validates ownership & LTV → sudo call to account → account calls `BorrowerMsg::Borrow` on vault → vault checks borrower whitelist & limits → tokens transferred to account\n"
  ++ "\n"
  ++ "4. **Liquidation Flow**:\n"
  ++ "   Liquidator calls `ExecuteMsg::Liquidate` → registry checks `adjusted_ltv >= liquidation_threshold` → calculates fees & repayment → sudo calls to close positions → liquidator receives bonus\n"
  ++ "\n"
  ++ "For each claim, reconstruct the entire execution path:\n"
  ++ "\n"
  ++ "1. **Identify Entry Point**: Which user-facing function is called? (`ExecuteMsg::Account`, `ExecuteMsg::Liquidate`, etc.)\n"
  ++ "2. **Follow Internal Calls**: Trace through all function calls, including:\n"
  ++ "   - Ownership validation in `rujira-ghost-credit`\n"
  ++ "   - LTV calculations in `account.rs`\n"
  ++ "   - Sudo forwarding to `rujira-account`\n"
  ++ "   - Vault operations in `rujira-ghost-vault`\n"
  ++ "3. **State Before Exploit**: Document initial state (collateral balances, debt, LTV ratios)\n"
  ++ "4. **State Transitions**: Enumerate all changes (collateral movements, debt updates, share minting/burning)\n"
  ++ "5. **Check Protections**: Verify if ownership checks, LTV validation, or mathematical constraints prevent the exploit\n"
  ++ "6. **Final State**: Show how the exploit results in unauthorized state (collateral loss, undercollateralization, share manipulation)\n"
  ++ "\n"
  ++ "#### **Step 2: VALIDATE EVERY CLAIM WITH CODE EVIDENCE**\n"
  ++ "\n"
  ++ "For **each assertion** in the report, demand:\n"
  ++ "\n"
  ++ "**✅ Required Evidence:**\n"
  ++ "- Exact file path and line numbers (e.g., `rujira-ghost-credit/src/account.rs:152-191`) within in-scope contracts\n"
  ++ "- Direct Rust code quotes showing the vulnerable logic\n"
  ++ "- Call traces with actual parameter values demonstrating how execution reaches the vulnerable line\n"
  ++ "- Calculations showing how collateral, debt, or LTV ratios change incorrectly\n"
  ++ "- References to specific invariant violations\n"
  ++ "\n"
  ++ "**🚩 RED FLAGS (indicate INVALID):**\n"
  ++ "\n"
  ++ "1. **\"Missing Validation\" Claims**:\n"
  ++ "   - ❌ Invalid unless report shows input bypasses *all* validation layers:\n"
  ++ "     - `ExecuteMsg::Account` ownership checks in `rujira-ghost-credit`\n"
  ++ "     - LTV validation in `account.rs`\n"
  ++ "     - Vault borrower whitelist checks\n"
  ++ "     - Sudo pattern restrictions in `rujira-account`\n"
  ++ "   - ✅ Valid if a specific input type genuinely has no validation path\n"
  ++ "\n"
  ++ "2. **\"LTV Calculation\" Claims**:\n"
  ++ "   - ❌ Invalid unless report demonstrates:\n"
  ++ "     - `adjusted_ltv` calculation produces incorrect values\n"
  ++ "     - Attacker can bypass `adjustment_threshold` or `liquidation_threshold`\n"
  ++ "     - Specific mathematical error in collateral ratio computation\n"
  ++ "   - ✅ Valid if LTV calculations can be manipulated for undercollateralization\n"
  ++ "\n"
  ++ "3. **\"Share Price Manipulation\" Claims**:\n"
  ++ "   - ❌ Invalid unless report demonstrates:\n"
  ++ "     - `totalAssets()` or `totalSupply()` can be manipulated in vault\n"
  ++ "     - Share price decreases unexpectedly allowing asset drainage\n"
  ++ "     - Attacker can extract value through share accounting errors\n"
  ++ "   - ✅ Valid if share accounting enables fund extraction\n"
  ++ "\n"
  ++ "4. **\"Access Control Bypass\" Claims**:\n"
  ++ "   - ❌ Invalid unless report demonstrates:\n"
  ++ "     - Sudo pattern can be circumvented in `rujira-account`\n"
  ++ "     - Ownership validation can be bypassed in `rujira-ghost-credit`\n"
  ++ "     - Borrower whitelist can be bypassed in vault\n"
  ++ "   - ✅ Valid if access controls can be circumvented\n"
  ++ "\n"
  ++ "5. **\"Liquidation Vulnerability\" Claims**:\n"
  ++ "   - ❌ Invalid unless report demonstrates:\n"
  ++ "     - Liquidation can be triggered prematurely or incorrectly\n"
  ++ "     - Fee extraction exceeds protocol limits\n"
  ++ "     - Liquidation process leaves residual debt or over-sells collateral\n"
  ++ "   - ✅ Valid if liquidation mechanism can be exploited\n"
  ++ "\n"
  ++ "6. **\"Interest Accrual Bugs\" Claims**:\n"
  ++ "   - ❌ Invalid unless report demonstrates:\n"
  ++ "     - `distribute_interest()` miscalculates interest or shares\n"
  ++ "     - Interest index fails to update correctly\n"
  ++ "     - Attacker can mint unlimited shares through interest manipulation\n"
  ++ "   - ✅ Valid if interest calculations enable fund extraction\n"
  ++ "\n"
  ++ "7. **\"Collateral Ratio\" Claims**:\n"
  ++ "   - ❌ Invalid unless report demonstrates:\n"
  ++ "     - Collateral ratio haircuts can be bypassed\n"
  ++ "     - Asset valuation can be manipulated for higher borrowing capacity\n"
  ++ "     - Cross-collateral calculations are incorrect\n"
  ++ "   - ✅ Valid if collateral calculations enable undercollateralization\n"
  ++ "\n"
  ++ "8. **\"Mathematical Overflow\" Claims**:\n"
  ++ "   - ❌ Invalid unless report demonstrates:\n"
  ++ "     - Specific arithmetic operation overflows/underflows\n"
  ++ "     - Overflow causes incorrect LTV or share calculations\n"
  ++ "     - Attacker can exploit overflow for fund theft\n"
  ++ "   - ✅ Valid if mathematical errors enable fund loss\n"
  ++ "\n"
  ++ "#### **Step 3: CROSS-REFERENCE WITH TEST SUITE**\n"
  ++ "\n"
  ++ "Rujira\x27s test suite includes comprehensive tests (out of scope but informative). Ask:\n"
  ++ "\n"
  ++ "1. **Existing Coverage**: Do current tests handle the scenario? Check tests like:\n"
  ++ "   - `rujira-ghost-credit/src/tests/contract.rs` - account lifecycle\n"
  ++ "   - Vault tests for interest distribution and borrowing\n"
  ++ "   - Account tests for sudo pattern and isolation\n"
  ++ "\n"
  ++ "2. **Test Gaps**: Is there an obvious gap that would allow the exploit? If scenario is untested, suggest adding test but do **not** assume vulnerability.\n"
  ++ "\n"
  ++ "3. **Invariant Tests**: Would existing invariant checks catch the bug? Tests verify:\n"
  ++ "   - Owner-gated account operations\n"
  ++ "   - Post-adjustment LTV checks\n"
  ++ "   - Safe liquidation outcomes\n"
  ++ "   - Always-accrued interest\n"
  ++ "\n"
  ++ "4. **PoC Feasibility**: Can the report\x27s PoC be implemented as a Rust test using existing contracts without modifying core code?\n"
  ++ "\n"
  ++ "**Test Case Realism Check**: PoCs must use realistic account structures, valid collateral amounts, and respect protocol constraints.\n"
  ++ "\n"
  ++ "### **PHASE 3: IMPACT & EXPLOITABILITY VALIDATION**\n"
  ++ "\n"
  ++ "#### **Impact Must Be CONCRETE and ALIGN WITH CODE4RENA SCOPE**\n"
  ++ "\n"
  ++ "**✅ Valid CRITICAL Severity Impacts (per Code4rena scope):**\n"
  ++ "\n"
  ++ "1. **Direct Loss of Funds (Critical)**:\n"
  ++ "   - Theft of user collateral from credit accounts\n"
  ++ "   - Theft of vault assets through share manipulation\n"
  ++ "   - Unauthorized borrowing from vaults\n"
  ++ "   - Collateral drainage through mathematical exploits\n"
  ++ "   - Example: \"Share price manipulation allows attacker to drain 1000 USDC from vault\"\n"
  ++ "\n"
  ++ "2. **Protocol Insolvency (Critical)**:\n"
  ++ "   - Systemic undercollateralization causing protocol-wide losses\n"
  ++ "   - LTV calculation errors enabling mass undercollateralization\n"
  ++ "   - Share supply overflow preventing all operations\n"
  ++ "   - Example: \"LTV calculation bug allows all accounts to become undercollateralized simultaneously\"\n"
  ++ "\n"
  ++ "3. **Permanent Freezing of Funds (Critical)**:\n"
  ++ "   - Funds locked with no transaction able to unlock them\n"
  ++ "   - Account bricking preventing collateral withdrawal\n"
  ++ "   - Share supply overflow preventing withdrawals\n"
  ++ "   - Example: \"Account creation bug locks 500 BTC collateral permanently\"\n"
  ++ "\n"
  ++ "**✅ Valid HIGH Severity Impacts:**\n"
  ++ "\n"
  ++ "4. **Temporary Freezing with Economic Loss (High)**:\n"
  ++ "   - Funds temporarily frozen causing economic damage\n"
  ++ "   - Widespread liquidations due to protocol bugs\n"
  ++ "   - Systemic undercollateralization risks\n"
  ++ "   - Example: \"Liquidation bug causes 100 accounts to be liquidated unnecessarily\"\n"
  ++ "\n"
  ++ "**✅ Valid MEDIUM Severity Impacts:**\n"
  ++ "\n"
  ++ "5. **Economic Manipulation (Medium)**:\n"
  ++ "   - Interest rate manipulation benefiting attackers\n"
  ++ "   - Liquidation bonus extraction beyond intended amounts\n"
  ++ "   - State inconsistencies requiring manual intervention\n"
  ++ "   - Example: \"Interest accrual bug allows attacker to extract 10 ETH in excess interest\"\n"
  ++ "\n"
  ++ "6. **State Inconsistencies (Medium)**:\n"
  ++ "   - Interest or fee calculation errors\n"
  ++ "   - DoS vulnerabilities affecting core functionality\n"
  ++ "   - LTV calculation inconsistencies\n"
  ++ "   - Example: \"LTV calculation bug causes 5% error in collateral requirements\"\n"
  ++ "\n"
  ++ "**❌ Invalid \"Impacts\":**\n"
  ++ "\n"
  ++ "- User withdraws their own collateral (normal protocol operation)\n"
  ++ "- Attacker loses their own funds through self-draining (not an exploit)\n"
  ++ "- Theoretical cryptographic weaknesses without practical exploit\n"
  ++ "- General market risk (price movements) unless caused by protocol bugs\n"
  ++ "- \"Could be problematic if...\" statements without concrete exploit path\n"
  ++ "- Minor fee overpayment or underpayment (<0.1% of transaction value)\n"
  ++ "- Precision loss <0.01% across reasonable transaction volumes\n"
  ++ "\n"
  ++ "#### **Likelihood Reality Check**\n"
  ++ "\n"
  ++ "Assess exploit feasibility:\n"
  ++ "\n"
  ++ "1. **Attacker Profile**:\n"
  ++ "   - Any user with THORChain secured assets to deposit? ✅ Likely\n"
  ++ "   - Liquidator monitoring for undercollateralized accounts? ✅ Possible\n"
  ++ "   - Attacker with ability to manipulate THORChain oracles? ❌ Impossible (trusted role)\n"
  ++ "   - Compromised Rujira Deployer Multisig? ❌ Impossible (trusted role)\n"
  ++ "\n"
  ++ "2. **Preconditions**:\n"
  ++ "   - Normal market operation? ✅ High likelihood\n"
  ++ "   - High vault utilization? ✅ Possible during volatile periods\n"
  ++ "   - Specific account structure (multiple collateral types)? ✅ Attacker-controlled\n"
  ++ "   - Specific oracle state (price movements)? ✅ Attacker can time submission\n"
  ++ "   - Network congestion or high gas prices? ✅ Possible but not required\n"
  ++ "\n"
  ++ "3. **Execution Complexity**:\n"
  ++ "   - Single ExecuteMsg call? ✅ Simple\n"
  ++ "   - Multiple coordinated transactions? ✅ Moderate (attacker controls)\n"
  ++ "   - Complex account with multiple collateral types? ✅ Attacker can create\n"
  ++ "   - Requires precise timing or front-running? ⚠️ Higher complexity\n"
  ++ "   - Requires mathematical precision? ✅ Attacker can calculate\n"
  ++ "\n"
  ++ "4. **Economic Cost**:\n"
  ++ "   - Collateral deposit required? ✅ Attacker-determined (can be minimal)\n"
  ++ "   - Gas costs for transactions? ✅ Moderate\n"
  ++ "   - Potential profit vs. cost? ✅ Must be positive for valid exploit\n"
  ++ "   - Liquidation capital required? ✅ Varies by opportunity\n"
  ++ "\n"
  ++ "5. **Combined Probability**:\n"
  ++ "   - Multiply probabilities of all conditions\n"
  ++ "   - If resulting likelihood <0.1% with no economic incentive → Invalid\n"
  ++ "   - If exploit is profitable and feasible → Valid\n"
  ++ "\n"
  ++ "### **PHASE 4: FINAL VALIDATION CHECKLIST**\n"
  ++ "\n"
  ++ "Before accepting any vulnerability, verify:\n"
  ++ "\n"
  ++ "1. **Scope Compliance**: Vulnerability affects only the 3 in-scope contracts\n"
  ++ "2. **Not Known Issue**: Check against Halborn audit reports\n"
  ++ "3. **Trust Model**: Exploit doesn\x27t require THORChain oracle or Deployer Multisig compromise\n"
  ++ "4. **Impact Severity**: Meets Critical/High/Medium per Code4rena scope\n"
  ++ "5. **Economic Incentive**: Attack must be profitable for attacker\n"
  ++ "6. **Technical Feasibility**: Exploit can be implemented without protocol modifications\n"
  ++ "7. **Invariant Violation**: Clearly breaks one of the 10 documented Rujira invariants\n"
  ++ "8. **PoC Completeness**: Rust test runs successfully against unmodified codebase\n"
  ++ "\n"
  ++ "**Remember**: False positives harm credibility. Assume claims are invalid until overwhelming evidence proves otherwise.\n"
  ++ "\n"
  ++ "---\n"
  ++ "\n"
  ++ "**AUDIT REPORT FORMAT** (if vulnerability found):  \n"
  ++ "  \n"
  ++ "Audit Report  \n"
  ++ "  \n"
  ++ "## Title   \n"
  ++ "The Title Of the Report   \n"
  ++ "  \n"
  ++ "## Summary  \n"
  ++ "A short summary of the issue, keep it brief.  \n"
  ++ "  \n"
  ++ "## Finding Description  \n"
  ++ "A more detailed explanation of the issue. Poorly written or incorrect findings may result in rejection and a decrease of reputation score.  \n"
  ++ "  \n"
  ++ "Describe which security guarantees it breaks and how it breaks them. If this bug does not automatically happen, showcase how a malicious input would propagate through the system to the part of the code where the issue occurs.  \n"
  ++ "  \n"
  ++ "## Impact Explanation  \n"
  ++ "Elaborate on why you\x27ve chosen a particular impact assessment.  \n"
  ++ "  \n"
  ++ "## Likelihood Explanation  \n"
  ++ "Explain how likely this is to occur and why.  \n"
  ++ "  \n"
  ++ "## Recommendation  \n"
  ++ "How can the issue be fixed or solved. Preferably, you can also add a snippet of the fixed code here.  \n"
  ++ "  \n"
  ++ "## Proof of Concept  \n"
  ++ "A proof of concept is normally required for Critical, High and Medium Submissions for reviewers under 80 reputation points. Please check the competition page for more details, otherwise your submission may be rejected by the judges.  \n"
  ++ "Very important the test function using their test must be provided in here and pls it must be able to compile and run successfully  \n"
  ++ "  \n"
  ++ "**Remember**: False positives harm credibility more than missed findings.  Assume claims are invalid until overwhelming evidence proves otherwise.  \n"
  ++ "  \n"
  ++ "**Now perform STRICT validation of the claim above.**  \n"
  ++ "  \n"
  ++ "**Output ONLY:**  \n"
  ++ "- A full audit report (if genuinely valid after passing **all** checks above) following the specified format  \n"
  ++ "- `#NoVulnerability found for this question.` (if **any** check fails)  very important \n"
  ++ "  \n"
  ++ "**Be ruthlessly skeptical.  The bar for validity is EXTREMELY valid.**  \n"

def qgS0a : String :=
     "\n"
  ++ "# **Generate 150+ Targeted Security Audit Questions for Rujira Protocol**\n"
  ++ "\n"
  ++ "## **Context**\n"
  ++ "\n"
  ++ "The target project is **Rujira**, an overcollateralized lending protocol built on THORChain using CosmWasm. The protocol enables users to deposit THORChain secured assets as collateral and borrow against them through a sophisticated three-contract system. Unlike traditional lending protocols, Rujira employs isolated accounting through individual `rujira-account` instances, orchestrated by a `rujira-ghost-credit` registry, with assets held in `rujira-ghost-vault` lending pools. The protocol maintains solvency through dynamic LTV calculations, collateral ratio haircuts, and permissionless liquidation mechanisms, while supporting complex features like multi-collateral accounts, cross-collateralization, and adaptive interest rates.\n"
  ++ "\n"
  ++ "Rujira\x27s architecture includes critical components for account creation, collateral management, borrowing operations, liquidation handling, interest accrual, and access control through the sudo pattern. The protocol maintains financial integrity through strict ownership validation, real-time LTV enforcement, and comprehensive asset accounting across all three contracts.\n"
  ++ "\n"
  ++ "## **Scope**\n"

def qgS0 : String := qgS0a ++ "\n" ++ "**CRITICAL TARGET FILE**: Focus question generation EXCLUSIVELY on `"

def qgS1b : String :=
     "\n"
  ++ "Note: The questions must be generated from **`"

def qgS1 : String := "`" ++ "\n" ++ qgS1b

def qgS2 : String :=
     "`** only. If you cannot generate enough questions from this single file, provide as many quality questions as you can extract from the file\x27s logic and interactions. **DO NOT return empty results** - give whatever questions you can derive from the target file.\n"
  ++ "\n"
  ++ "If you cannot reach 150 questions from this file alone, generate as many high-quality questions as the file\x27s complexity allows (minimum target: 50-100 questions for large critical files, 20-50 for smaller files).\n"
  ++ "\n"
  ++ "**Full Context - 3 In-Scope Files (for reference only):**\n"
  ++ "If a file is more than a thousand lines you can generate as many as 300+ questions as you can, but always generate as many as you can - don\x27t give other responses.\n"
  ++ "If there are math logic functions, also generate as many questions based on all the math logic among the questions you\x27re giving me to cover all scope and entry points.\n"
  ++ "\n"
  ++ "### **Core Protocol Contracts - 3 files**\n"
  ++ "\n"
  ++ "```python\n"
  ++ "core_files = [\n"
  ++ "    \"contracts/rujira-account/src/contract.rs\",        # sudo pattern, isolated accounting\n"
  ++ "    \"contracts/rujira-account/src/execute.rs\",         # message forwarding\n"
  ++ "    \"contracts/rujira-ghost-credit/src/contract.rs\",   # registry, orchestration\n"
  ++ "    \"contracts/rujira-ghost-credit/src/account.rs\",     # LTV calculations\n"
  ++ "    \"contracts/rujira-ghost-credit/src/config.rs\",      # protocol parameters\n"
  ++ "    \"contracts/rujira-ghost-vault/src/contract.rs\",     # vault operations\n"
  ++ "    \"contracts/rujira-ghost-vault/src/state.rs\",        # share accounting\n"
  ++ "    \"contracts/rujira-ghost-vault/src/borrowers.rs\",    # borrower limits\n"
  ++ "]\n"
  ++ "```\n"
  ++ "\n"
  ++ "**Total: 8 files in full scope (but focus ONLY on `"

def qgS3 : String :=
     "` for this generation)**\n"
  ++ "\n"
  ++ "---\n"
  ++ "\n"
  ++ "## **Rujira Protocol Architecture & Layers**\n"
  ++ "\n"
  ++ "### **1. Account Management Layer** (`rujira-account`)\n"
  ++ "\n"
  ++ "- **Sudo Pattern**: `rujira-account` instances only accept `sudo` calls from registry, rejecting all direct `execute` calls\n"
  ++ "- **Isolated Accounting**: Each account is a separate contract instance with siloed balance tracking\n"
  ++ "- **Message Forwarding**: Registry forwards operations through `SudoMsg` to account contracts\n"
  ++ "- **Access Control**: Only registry can drive account-level operations and token transfers\n"
  ++ "\n"
  ++ "### **2. Credit Registry Layer** (`rujira-ghost-credit`)\n"
  ++ "\n"
  ++ "- **Account Orchestration**: Registry coordinates all account operations through `ExecuteMsg::Account`\n"
  ++ "- **LTV Enforcement**: Real-time loan-to-value calculations with `adjusted_ltv` checks\n"
  ++ "- **Liquidation Management**: Permissionless liquidation triggers and queue processing\n"
  ++ "- **Vault Whitelisting**: Only approved vaults can be used for borrowing operations\n"
  ++ "- **Configuration Validation**: All parameter changes validated through `Config::validate`\n"
  ++ "\n"
  ++ "### **3. Lending Vault Layer** (`rujira-ghost-vault`)\n"
  ++ "\n"
  ++ "- **Share-Based Accounting**: ERC4626-style vault with `totalAssets()` and `totalSupply()` tracking\n"
  ++ "- **Interest Distribution**: Always-accrued interest model with `distribute_interest()` on every operation\n"
  ++ "- **Borrower Management**: Whitelisted borrowers with USD value limits per borrower\n"
  ++ "- **Asset Management**: Deposit, withdraw, borrow, and repay operations with proper accounting\n"
  ++ "\n"
  ++ "---\n"
  ++ "\n"
  ++ "## **Critical Security Invariants**\n"
  ++ "\n"
  ++ "### **Access Control & Ownership**\n"
  ++ "\n"
  ++ "1. **Owner-Gated Accounts**: Only `account.owner` can initiate operations via `ExecuteMsg::Account`\n"
  ++ "2. **Admin-Only Accounts**: `rujira-account` instances only accept `sudo` calls from registry\n"
  ++ "3. **Governance-Whitelisted Borrowers**: Only pre-approved contracts can borrow from vaults\n"
  ++ "4. **Whitelisted Vault Access**: Registry only routes to vaults listed in `collateral_ratios`\n"
  ++ "\n"
  ++ "### **LTV & Solvency**\n"
  ++ "\n"
  ++ "5. **Post-Adjustment LTV Check**: After any owner operation, `adjusted_ltv` must be `< adjustment_threshold`\n"
  ++ "6. **Safe Liquidation Outcomes**: Liquidations only trigger when `adjusted_ltv >= liquidation_threshold`\n"
  ++ "7. **Borrow Limit Enforcement**: Each borrower has a maximum USD value they can borrow\n"
  ++ "8. **Bounded Config Values**: All configuration changes validated via `Config::validate`\n"
  ++ "\n"
  ++ "### **Financial Integrity**\n"
  ++ "\n"
  ++ "9. **Fee-First Liquidation Repay**: Protocol and liquidator fees extracted before debt repayment\n"
  ++ "10. **Always-Accrued Interest**: `distribute_interest()` called before all operations\n"
  ++ "11. **Collateral Ratio Haircuts**: Each collateral type has a `collateral_ratio` haircut for risk management\n"
  ++ "12. **Cross-Collateral Limits**: Cross-buffer ratio scales conservatively with utilization\n"
  ++ "\n"
  ++ "---\n"
  ++ "\n"
  ++ "## **In-Scope Vulnerability Categories** (from Code4rena)\n"
  ++ "\n"
  ++ "Focus questions on vulnerabilities that lead to these impacts:\n"
  ++ "\n"
  ++ "### **Critical Severity**\n"
  ++ "\n"
  ++ "1. **Direct loss of funds**\n"
  ++ "   - LTV calculation errors allowing undercollateralized borrowing\n"
  ++ "   - Share price manipulation allowing asset drainage from vaults\n"
  ++ "   - Interest accrual bugs causing unlimited asset minting\n"
  ++ "   - Access control bypasses enabling unauthorized borrowing\n"
  ++ "\n"
  ++ "2. **Permanent freezing of funds**\n"
  ++ "   - Account bricking preventing collateral withdrawal\n"
  ++ "   - Share supply overflow preventing all vault operations\n"
  ++ "   - Interest state corruption blocking position closures\n"
  ++ "   - Invalid account states locking funds permanently\n"
  ++ "\n"
  ++ "3. **Protocol insolvency**\n"
  ++ "   - Collateral requirement calculation errors\n"
  ++ "   - Liquidation bonus extraction causing protocol loss\n"
  ++ "   - Cross-collateralization bugs causing systemic undercollateralization\n"
  ++ "   - Premium settlement errors causing fund drainage\n"
  ++ "\n"
  ++ "### **High Severity**\n"
  ++ "\n"
  ++ "4. **Temporary freezing of funds**\n"
  ++ "   - Liquidation failures preventing account closures\n"
  ++ "   - Oracle stale prices blocking all operations\n"
  ++ "   - Interest accrual overflow preventing withdrawals\n"
  ++ "   - Account transfer restrictions bypassed incorrectly\n"
  ++ "\n"
  ++ "5. **Incorrect protocol behavior**\n"
  ++ "   - LTV calculation errors producing wrong solvency results\n"
  ++ "   - Interest distribution bugs favoring certain users\n"
  ++ "   - Borrower limit bypasses through delegate borrowing\n"
  ++ "   - Vault configuration errors\n"
  ++ "\n"
  ++ "### **Medium Severity**\n"
  ++ "\n"
  ++ "6. **Economic manipulation**\n"
  ++ "   - Interest rate manipulation through utilization attacks\n"
  ++ "   - Liquidation bonus extraction beyond intended amounts\n"
  ++ "   - Share price manipulation in vaults\n"
  ++ "   - Gas griefing through expensive operations\n"
  ++ "\n"
  ++ "7. **State inconsistencies**\n"
  ++ "   - Asset accounting mismatches between contracts\n"
  ++ "   - Interest index calculation inaccuracies\n"
  ++ "   - Account balance tracking errors\n"
  ++ "   - Oracle state divergence\n"
  ++ "\n"
  ++ "---\n"
  ++ "\n"
  ++ "## **Valid Impact Categories (Restated for Rujira)**\n"
  ++ "\n"
  ++ "### **Critical**\n"
  ++ "\n"
  ++ "- Direct theft of user collateral or vault assets\n"
  ++ "- Permanent fund freezing requiring protocol redeployment\n"
  ++ "- Protocol insolvency leading to systemic loss\n"
  ++ "- Unlimited asset minting or share price collapse\n"
  ++ "\n"
  ++ "### **High**\n"
  ++ "\n"
  ++ "- Temporary fund freezing with economic loss\n"
  ++ "- Systemic undercollateralization risks\n"
  ++ "- Widespread account liquidations due to bugs\n"
  ++ "- Access control bypasses enabling theft\n"
  ++ "\n"
  ++ "### **Medium**\n"
  ++ "\n"
  ++ "- Economic manipulation benefiting attackers\n"
  ++ "- State inconsistencies requiring manual intervention\n"
  ++ "- Interest or fee calculation errors\n"
  ++ "- DoS vulnerabilities affecting core functionality\n"
  ++ "\n"
  ++ "### **Out of Scope**\n"
  ++ "\n"
  ++ "- Gas optimization inefficiencies\n"
  ++ "- UI/UX issues in frontends\n"
  ++ "- Market risk (price movements)\n"
  ++ "- THORChain network failures\n"
  ++ "- MEV or front-running attacks\n"
  ++ "- Theoretical attacks without economic impact\n"
  ++ "\n"
  ++ "---\n"
  ++ "\n"
  ++ "## **Goals for Question Generation**\n"
  ++ "\n"
  ++ "1. **Real Exploit Scenarios**: Each question describes a plausible attack an attacker, liquidator, or malicious user could perform\n"
  ++ "2. **Concrete & Actionable**: Reference specific functions, variables, or logic flows in `"

def qgS4 : String :=
     "`\n"
  ++ "3. **High Impact**: Prioritize questions leading to Critical/High/Medium impacts per Code4rena scope\n"
  ++ "4. **Deep Financial Logic**: Focus on subtle state transitions, cross-contract interactions, rounding errors, LTV calculation bugs\n"
  ++ "5. **Breadth Within Target File**: Cover all major functions, edge cases, and state-changing operations in `"

def qgS5 : String :=
     "`\n"
  ++ "6. **Respect Trust Model**: THORChain oracles and Rujira Deployer Multisig are trusted; focus on attacks by regular users\n"
  ++ "7. **No Generic Questions**: Avoid \"are there access control issues?\" → Instead: \"In `"

def qgS6a : String :=
     ": functionName()`, if condition X occurs, can attacker exploit Y to cause Z impact?\"\n"
  ++ "\n"
  ++ "---\n"
  ++ "\n"
  ++ "## **Question Format Template**\n"
  ++ "\n"
  ++ "Each question MUST follow this Python list format:\n"
  ++ "\n"
  ++ "```python\n"
  ++ "questions = ["

def qgS6 : String := qgS6a ++ "\n" ++ "    \"[File: "

def qgS7b : String :=
     "    \n"
  ++ "    \"[File: "

def qgS7 : String := "] [Function: functionName()] [Vulnerability Type] Specific question describing attack vector, preconditions, and impact linking to Code4rena categories?\"," ++ "\n" ++ qgS7b

def qgS8 : String :=
     "] [Function: anotherFunction()] [Vulnerability Type] Another specific question with concrete exploit scenario?\",\n"
  ++ "    \n"
  ++ "    # ... continue with all generated questions\n"
  ++ "]\n"
  ++ "```\n"
  ++ "\n"
  ++ "**Example Format** (if target_file is `contracts/rujira-ghost-credit/src/contract.rs`):\n"
  ++ "```python\n"
  ++ "questions = [\n"
  ++ "    \"[File: contracts/rujira-ghost-credit/src/contract.rs] [Function: execute()] [LTV bypass] Can an attacker craft a malicious AccountMsg sequence that passes initial ownership checks but manipulates collateral prices between operations to bypass adjusted_ltv validation, allowing them to open undercollateralized positions and potentially drain vault funds?\",\n"
  ++ "    \n"
  ++ "    \"[File: contracts/rujira-ghost-credit/src/contract.rs] [Function: liquidate()] [Liquidation manipulation] Does the liquidation queue correctly handle edge cases where asset prices fluctuate during liquidation, potentially allowing liquidators to extract higher bonuses than intended or leaving accounts in unsafe states?\",\n"
  ++ "    \n"
  ++ "    \"[File: contracts/rujira-ghost-credit/src/contract.rs] [Function: create_account()] [Access control] Can an attacker bypass the account creation validation to create accounts with invalid configurations, potentially leading to account bricking or unauthorized access to borrowed funds?\",\n"
  ++ "]\n"
  ++ "```\n"
  ++ "\n"
  ++ "---\n"
  ++ "\n"
  ++ "## **Output Requirements**\n"
  ++ "\n"
  ++ "Generate security audit questions focusing EXCLUSIVELY on **`"

def qgS9 : String :=
     "`** that:\n"
  ++ "\n"
  ++ "1. **Target ONLY `"

def qgS10 : String :=
     "`** - all questions must reference this file\n"
  ++ "2. **Reference specific functions, variables, or logic sections** within `"

def qgS11 : String :=
     "`\n"
  ++ "3. **Describe concrete attack vectors** (not \"could there be a bug?\" but \"can attacker do X by exploiting Y in `"

def qgS12 : String :=
     "`?\")\n"
  ++ "4. **Tie to Code4rena impact categories** (fund loss, freezing, insolvency, manipulation, DoS)\n"
  ++ "5. **Respect trust model** (THORChain oracles and Deployer Multisig are trusted; focus on user/attacker actions)\n"
  ++ "6. **Cover diverse attack surfaces** within `"

def qgS13 : String :=
     "`: validation logic, state transitions, error handling, edge cases, interactions with other contracts\n"
  ++ "7. **Focus on high-severity bugs**: prioritize Critical > High > Medium impacts\n"
  ++ "8. **Avoid out-of-scope issues**: gas optimization, UI bugs, theoretical attacks without economic impact\n"
  ++ "9. **Use the exact Python list format** shown above\n"
  ++ "10. **Be detailed and technical**: assume auditor has deep DeFi knowledge; use precise terminology\n"
  ++ "\n"
  ++ "**Target Question Count:**\n"
  ++ "- For large critical files (>500 lines like contract.rs files): Aim for 100-200 questions\n"
  ++ "- For medium files (-500 lines like state.rs, account.rs): Aim for 50-100 questions  \n"
  ++ "- For smaller files (< lines like config.rs, execute.rs): Aim for 20-50 questions\n"
  ++ "- **Provide as many quality questions as the file\x27s complexity allows - do NOT return empty results**\n"
  ++ "\n"
  ++ "**Begin generating questions for `"

def qgS14 : String :=
     "` now.\n"

/-- The audit-prompt template text before the embedded question: everything
in the f-string of `question_format` up to `{question}`. -/
def qfA : String := qfPreQ ++ "\n" ++ qLabel

/-- The audit-prompt template text after the embedded question: everything in
the f-string of `question_format` following `{question}`, i.e. the rest of
the question line (two trailing spaces), the body `qfMid`, the sentinel
instruction line `sentLine`, and the closing text `qfPost`. -/
def qfB : String := "  " ++ "\n" ++ qfMid ++ "\n" ++ sentLine ++ "\n" ++ qfPost

/-- `question_format` from `questions.py`: the f-string embeds the question
between the constant prefix `qfA` and the constant suffix `qfB`. -/
def question_format (question : String) : String :=
  qfA ++ question ++ qfB

/-- `validation_format` from `questions.py`: the f-string embeds the report
between the constant prefix `vfA` and the constant suffix `vfB`. -/
def validation_format (report : String) : String :=
  vfA ++ report ++ vfB

/-- `question_generator` from `questions.py`: the f-string interpolates
`target_file` at each of its 14 `{target_file}` occurrences, between the 15
constant text segments `qgS0` … `qgS14`. -/
def question_generator (target_file : String) : String :=
  qgS0 ++ target_file ++ qgS1 ++ target_file ++ qgS2 ++ target_file ++ qgS3
    ++ target_file ++ qgS4 ++ target_file ++ qgS5 ++ target_file ++ qgS6
    ++ target_file ++ qgS7 ++ target_file ++ qgS8 ++ target_file ++ qgS9
    ++ target_file ++ qgS10 ++ target_file ++ qgS11 ++ target_file ++ qgS12
    ++ target_file ++ qgS13 ++ target_file ++ qgS14

/-- The constant segments of the `question_generator` template, in order. -/
def qgSegs : List String :=
  [qgS0, qgS1, qgS2, qgS3, qgS4, qgS5, qgS6, qgS7, qgS8, qgS9, qgS10,
   qgS11, qgS12, qgS13, qgS14]

/-- Fill every slot of a segmented template with the same value: the segments
are emitted in order with `v` between consecutive segments. -/
def fillSlots : List String → String → String
  | [], _ => ""
  | [s], _ => s
  | s :: rest, v => s ++ v ++ fillSlots rest v

/-- The module-level state visible to a composer at call time: the loaded
question corpus and the target-file registry.  The composer bodies reference
neither global. -/
structure ModuleEnv where
  questions : Json
  questions_generator : List String

/-- Calling `question_format` inside the module: the body reads only its
parameter and string literals, and writes nothing, so the module state is
returned unchanged. -/
def run_question_format (env : ModuleEnv) (question : String) :
    ModuleEnv × String :=
  (env, question_format question)

/-- Calling `validation_format` inside the module. -/
def run_validation_format (env : ModuleEnv) (report : String) :
    ModuleEnv × String :=
  (env, validation_format report)

/-- Calling `question_generator` inside the module. -/
def run_question_generator (env : ModuleEnv) (target_file : String) :
    ModuleEnv × String :=
  (env, question_generator target_file)

/-- The question of the audit-prompt scenario. -/
def auditQ : String := "Can liquidation fees exceed the protocol-defined cap?"

/-- The target path of the question-generation scenario. -/
def statePath : String := "contracts/rujira-ghost-vault/src/state.rs"

/-- Claim C1: for every string `Q` the audit prompt is `qfA ++ Q ++ qfB` with
constant `qfA` and `qfB`, so `Q` occurs as a contiguous substring at the one
designated position (right after the fixed prefix `qfA`, which ends with the
question label), the substitution happens exactly once, and for any two
inputs the documents agree character-for-character outside the substituted
region (the first `qfA.data.length` characters and everything after the
embedded question coincide). -/
theorem audit_prompt_pure_substitution (q q' : String) :
    question_format q = qfA ++ q ++ qfB
    ∧ (question_format q).data = qfA.data ++ q.data ++ qfB.data
    ∧ (question_format q).data.take qfA.data.length
        = (question_format q').data.take qfA.data.length
    ∧ (question_format q).data.drop (qfA.data.length + q.data.length)
        = (question_format q').data.drop (qfA.data.length + q'.data.length) := by
  have hdata : ∀ r : String,
      (question_format r).data = (qfA.data ++ r.data) ++ qfB.data := by
    intro r
    simp [question_format, List.append_assoc]
  refine ⟨rfl, by simp [question_format], ?_, ?_⟩
  · rw [hdata q, hdata q', List.append_assoc, List.append_assoc,
      List.take_left, List.take_left]
  · have h1 : (qfA.data ++ q.data).length = qfA.data.length + q.data.length := by
      simp
    have h2 : (qfA.data ++ q'.data).length = qfA.data.length + q'.data.length := by
      simp
    rw [hdata q, hdata q', List.drop_left' h1, List.drop_left' h2]

/-- Claim C5: for every string `R` the validation prompt is `vfA ++ R ++ vfB`
with constant `vfA` and `vfB`, so `R` occurs as a contiguous substring and
the document outside the embedded region does not depend on `R`. -/
theorem validation_prompt_pure_substitution (r r' : String) :
    validation_format r = vfA ++ r ++ vfB
    ∧ (validation_format r).data = vfA.data ++ r.data ++ vfB.data
    ∧ (validation_format r).data.take vfA.data.length
        = (validation_format r').data.take vfA.data.length
    ∧ (validation_format r).data.drop (vfA.data.length + r.data.length)
        = (validation_format r').data.drop (vfA.data.length + r'.data.length) := by
  have hdata : ∀ s : String,
      (validation_format s).data = (vfA.data ++ s.data) ++ vfB.data := by
    intro s
    simp [validation_format, List.append_assoc]
  refine ⟨rfl, by simp [validation_format], ?_, ?_⟩
  · rw [hdata r, hdata r', List.append_assoc, List.append_assoc,
      List.take_left, List.take_left]
  · have h1 : (vfA.data ++ r.data).length = vfA.data.length + r.data.length := by
      simp
    have h2 : (vfA.data ++ r'.data).length = vfA.data.length + r'.data.length := by
      simp
    rw [hdata r, hdata r', List.drop_left' h1, List.drop_left' h2]

/-- Claim C2: the question-generation prompt is the 15 constant segments
`qgSegs` with the input path filled into every one of the 14 placeholder
slots (`fillSlots` puts the same value between consecutive segments), so no
two placeholder occurrences can disagree; and composing with
`contracts/rujira-ghost-vault/src/state.rs` yields a document whose
target-file line and whose bracketed `[File: …]` example line read exactly
that path — both exhibited as whole lines (newline-delimited, themselves
newline-free). -/
theorem question_generator_slots (p : String) :
    question_generator p = fillSlots qgSegs p
    ∧ qgSegs.length = 15
    ∧ (∃ u v : String, question_generator statePath
        = u ++ "\n"
          ++ ("**CRITICAL TARGET FILE**: Focus question generation EXCLUSIVELY on `contracts/rujira-ghost-vault/src/state.rs`")
          ++ "\n" ++ v)
    ∧ (("**CRITICAL TARGET FILE**: Focus question generation EXCLUSIVELY on `contracts/rujira-ghost-vault/src/state.rs`").data.all
        (fun c => !(c == '\n'))) = true
    ∧ (∃ u v : String, question_generator statePath
        = u ++ "\n"
          ++ ("    \"[File: contracts/rujira-ghost-vault/src/state.rs] [Function: functionName()] [Vulnerability Type] Specific question describing attack vector, preconditions, and impact linking to Code4rena categories?\",")
          ++ "\n" ++ v)
    ∧ (("    \"[File: contracts/rujira-ghost-vault/src/state.rs] [Function: functionName()] [Vulnerability Type] Specific question describing attack vector, preconditions, and impact linking to Code4rena categories?\",").data.all
        (fun c => !(c == '\n'))) = true := by
  refine ⟨?_, rfl, ?_, by decide, ?_, by decide⟩
  · simp [question_generator, qgSegs, fillSlots, String.append_assoc]
  · refine ⟨qgS0a,
      qgS1b ++ statePath ++ qgS2 ++ statePath ++ qgS3 ++ statePath ++ qgS4
        ++ statePath ++ qgS5 ++ statePath ++ qgS6 ++ statePath ++ qgS7
        ++ statePath ++ qgS8 ++ statePath ++ qgS9 ++ statePath ++ qgS10
        ++ statePath ++ qgS11 ++ statePath ++ qgS12 ++ statePath ++ qgS13
        ++ statePath ++ qgS14, ?_⟩
    have hline :
        ("**CRITICAL TARGET FILE**: Focus question generation EXCLUSIVELY on `contracts/rujira-ghost-vault/src/state.rs`" : String)
          = "**CRITICAL TARGET FILE**: Focus question generation EXCLUSIVELY on `"
            ++ statePath ++ "`" := by decide
    rw [hline]
    simp only [question_generator, qgS0, qgS1, String.append_assoc]
  · refine ⟨qgS0 ++ statePath ++ qgS1 ++ statePath ++ qgS2 ++ statePath
        ++ qgS3 ++ statePath ++ qgS4 ++ statePath ++ qgS5 ++ statePath
        ++ qgS6a,
      qgS7b ++ statePath ++ qgS8 ++ statePath ++ qgS9 ++ statePath ++ qgS10
        ++ statePath ++ qgS11 ++ statePath ++ qgS12 ++ statePath ++ qgS13
        ++ statePath ++ qgS14, ?_⟩
    have hline :
        ("    \"[File: contracts/rujira-ghost-vault/src/state.rs] [Function: functionName()] [Vulnerability Type] Specific question describing attack vector, preconditions, and impact linking to Code4rena categories?\"," : String)
          = "    \"[File: " ++ statePath
            ++ "] [Function: functionName()] [Vulnerability Type] Specific question describing attack vector, preconditions, and impact linking to Code4rena categories?\"," := by
      decide
    rw [hline]
    simp only [question_generator, qgS6, qgS7, String.append_assoc]

/-- Claim C4: composing the audit prompt with
`"Can liquidation fees exceed the protocol-defined cap?"` yields a document
whose question line is exactly the fixed label followed by that sentence
(plus the two trailing markdown spaces of the template), and whose
failure-output instruction line is exactly the sentinel
`#NoVulnerability found for this question.` quoted in the markdown
backticks of the template.  Both lines are exhibited newline-delimited and are
themselves newline-free. -/
theorem audit_prompt_scenario :
    question_format auditQ
      = qfPreQ ++ "\n"
        ++ ("**Security Question (scope for this run):** Can liquidation fees exceed the protocol-defined cap?  ")
        ++ "\n" ++ (qfMid ++ "\n" ++ sentLine ++ "\n" ++ qfPost)
    ∧ sentLine = "`" ++ "#NoVulnerability found for this question." ++ "`  "
    ∧ (("**Security Question (scope for this run):** Can liquidation fees exceed the protocol-defined cap?  ").data.all
        (fun c => !(c == '\n'))) = true
    ∧ (sentLine.data.all (fun c => !(c == '\n'))) = true := by
  refine ⟨?_, by decide, by decide, by decide⟩
  have hline :
      ("**Security Question (scope for this run):** Can liquidation fees exceed the protocol-defined cap?  " : String)
        = qLabel ++ auditQ ++ "  " := by decide
  rw [hline]
  simp only [question_format, qfA, qfB, String.append_assoc]

/-- Claim C6: each composer is deterministic and idempotent — with the module
state made explicit, running the same composer twice on the same input
returns byte-identical documents, and the module state (corpus and registry)
is unchanged by the call, so there is no hidden clock, counter or
randomness. -/
theorem composers_idempotent (env : ModuleEnv) (q r t : String) :
    (run_question_format (run_question_format env q).1 q).2
        = (run_question_format env q).2
    ∧ (run_question_format env q).1 = env
    ∧ (run_validation_format (run_validation_format env r).1 r).2
        = (run_validation_format env r).2
    ∧ (run_validation_format env r).1 = env
    ∧ (run_question_generator (run_question_generator env t).1 t).2
        = (run_question_generator env t).2
    ∧ (run_question_generator env t).1 = env :=
  ⟨rfl, rfl, rfl, rfl, rfl, rfl⟩

/-- Claim C7: the output of each composer is independent of the question corpus and the
target-file registry — composing under any two module states (arbitrary
loaded corpus values and arbitrary registry lists) yields the same document
for the same input. -/
theorem composers_ignore_stores (c c' : Json) (l l' : List String)
    (x : String) :
    (run_question_format ⟨c, l⟩ x).2 = (run_question_format ⟨c', l'⟩ x).2
    ∧ (run_validation_format ⟨c, l⟩ x).2 = (run_validation_format ⟨c', l'⟩ x).2
    ∧ (run_question_generator ⟨c, l⟩ x).2 = (run_question_generator ⟨c', l'⟩ x).2 :=
  ⟨rfl, rfl, rfl⟩

/-- Claim C8: every composer is total — each is a total function on all
strings (so no input, the empty string included, can make it raise), and the
returned document is never empty, because each template contributes its
non-empty constant text around the input. -/
theorem composers_total (q : String) :
    question_format q ≠ "" ∧ validation_format q ≠ "" ∧ question_generator q ≠ "" := by
  refine ⟨?_, ?_, ?_⟩
  · intro hemp
    have hd := congrArg String.data hemp
    simp only [question_format, String.data_append, List.append_assoc] at hd
    exact List.append_ne_nil_of_left_ne_nil (by decide) _ hd
  · intro hemp
    have hd := congrArg String.data hemp
    simp only [validation_format, String.data_append, List.append_assoc] at hd
    exact List.append_ne_nil_of_left_ne_nil (by decide) _ hd
  · intro hemp
    have hd := congrArg String.data hemp
    simp only [question_generator, String.data_append, List.append_assoc] at hd
    exact List.append_ne_nil_of_left_ne_nil (by decide) _ hd

/-- Claim C3: the loader contract — if the resource exists and parses as the
expected shape (a JSON array of questions) it is returned verbatim, order
preserved; on any acquisition failure (absent, unreadable or malformed
resource) the result is the empty sequence; and `get_questions` is a total
function of the acquisition outcome, so no failure is signalled to the
caller. -/
theorem get_questions_contract :
    (∀ qs : List Json, get_questions (Except.ok (Json.arr qs)) = Json.arr qs)
    ∧ (∀ e : LoadError, get_questions (Except.error e) = Json.arr []) :=
  ⟨fun _ => rfl, fun _ => rfl⟩

/-- Claim C9: on a successful parse the loader returns the parsed JSON value
verbatim whatever its type — a JSON object or number is passed through
unchanged rather than replaced by the empty sequence. -/
theorem get_questions_ok_verbatim :
    (∀ v : Json, get_questions (Except.ok v) = v)
    ∧ get_questions (Except.ok (Json.obj [("a", Json.num 1)]))
        = Json.obj [("a", Json.num 1)]
    ∧ get_questions (Except.ok (Json.num 3)) = Json.num 3 :=
  ⟨fun _ => rfl, rfl, rfl⟩

/-- Claim C10: the registry constant holds exactly 19 pairwise-distinct
non-empty path strings, each beginning with one of the three in-scope
directory prefixes. -/
theorem registry_shape :
    questions_generator.length = 19
    ∧ questions_generator.Nodup
    ∧ questions_generator.all (fun s =>
        (!(s == ""))
        && (("contracts/rujira-account/src/").data.isPrefixOf s.data
            || ("contracts/rujira-ghost-credit/src/").data.isPrefixOf s.data
            || ("contracts/rujira-ghost-vault/src/").data.isPrefixOf s.data)) = true := by
  refine ⟨rfl, by decide, by decide⟩
